import Mathlib

/-!
Verification of the lazyabp/domain-check probe pipeline.

The repository has two probe drivers: `DomainCheckApi.py` (the concurrent
FastAPI orchestrator `check_domain`) and `DomainCheckCli.py` (the sequential
terminal driver `run`).  Network I/O is modelled by oracle environments: every
probe invocation consumes an explicit outcome (a value delivered by the
network, or an exception kind raised by the Python runtime), and the embedded
functions are the pure classification / aggregation logic the source applies
to those outcomes.
-/

namespace DomainCheck

/-- Kinds of Python exceptions that can escape a network call in this code
base.  Following the documented CPython exception hierarchy:
`ssl.SSLCertVerificationError` is a subclass of `ssl.SSLError` ("A subclass of
`SSLError` raised when certificate validation fails"), and so is
`ssl.SSLEOFError` (raised when the SSL connection is terminated abruptly);
`ConnectionResetError`, `ConnectionRefusedError` and `socket.timeout` are
`OSError` subclasses and are not `ssl.SSLError`s. -/
inductive ExcKind where
  /-- an `ssl.SSLError` reporting an abrupt termination / reset at the SSL
  layer during the handshake (e.g. `ssl.SSLEOFError`) -/
  | sslAbort
  /-- `ssl.SSLCertVerificationError`: certificate validation failed -/
  | certVerificationError
  /-- a generic `ssl.SSLError` (protocol error) -/
  | sslProtocolError
  /-- `ConnectionResetError`: the transport-layer connection was reset (TCP
  RST surfaced by the OS, an `OSError`, not an `ssl.SSLError`) -/
  | connectionReset
  /-- `socket.timeout` / `TimeoutError` -/
  | timeout
  /-- `ConnectionRefusedError` -/
  | connectionRefused
  /-- any other exception (`OSError`, `subprocess` errors, ...) -/
  | otherError
deriving DecidableEq

/-- Whether the exception is an `ssl.SSLError` (this is exactly the class the
`except ssl.SSLError` clause of `tls_handshake` catches).  Per the CPython
documentation, certificate-verification and SSL-EOF errors are `SSLError`s;
resets, timeouts and refusals surfaced by the OS are not. -/
def ExcKind.isSSLError : ExcKind → Bool
  | .sslAbort => true
  | .certVerificationError => true
  | .sslProtocolError => true
  | .connectionReset => false
  | .timeout => false
  | .connectionRefused => false
  | .otherError => false

/-- Whether the exception is "a transport-layer reset or abrupt connection
termination during the handshake phase" in the spec's words (section 4.3). -/
def ExcKind.isAbruptTermination : ExcKind → Bool
  | .sslAbort => true
  | .connectionReset => true
  | .certVerificationError => false
  | .sslProtocolError => false
  | .timeout => false
  | .connectionRefused => false
  | .otherError => false

/-- Outcome of one attempted TLS connection + handshake to the domain:
either the handshake completed, or some exception was raised somewhere in the
`try` block of `tls_handshake`. -/
inductive TlsAttempt where
  | handshakeOk
  | raised (e : ExcKind)
deriving DecidableEq

/-- The three-valued TLS classification.  In the Python source the three
values are `True`, the string `"TLS-Reset"`, and `False`. -/
inductive TlsResult where
  | success
  | reset
  | otherFailure
deriving DecidableEq

/-- Embedding of `tls_handshake` (DomainCheckApi.py lines 83-95 and the
identical DomainCheckCli.py lines 55-66): the `try` body returns `True` when
the handshake completes; `except ssl.SSLError` returns `"TLS-Reset"`;
`except Exception` returns `False`. -/
def tls_handshake : TlsAttempt → TlsResult
  | .handshakeOk => .success
  | .raised e => if e.isSSLError then .reset else .otherFailure

/-- Written from the spec's classification rule (section 4.3 / claim C1): a
transport-layer reset or abrupt termination during the handshake yields
`Reset`; any other exception (timeout, certificate failure, connection
refused) yields `OtherFailure`; a completed handshake yields `Success`. -/
def specTlsClassify : TlsAttempt → TlsResult
  | .handshakeOk => .success
  | .raised e => if e.isAbruptTermination then .reset else .otherFailure

/-- Written from the amended claim: classification is by exception class —
any `ssl.SSLError` yields `Reset`, any non-`SSLError` exception yields
`OtherFailure`, a completed handshake yields `Success`. -/
def amendedTlsClassify : TlsAttempt → TlsResult
  | .handshakeOk => .success
  | .raised e => if e.isSSLError then .reset else .otherFailure

/-- Outcome of one `dig` subprocess invocation: the decoded standard output,
or an exception (timeout, missing binary, non-zero exit status, ...). -/
inductive DigOutcome where
  | output (raw : String)
  | raised (e : ExcKind)
deriving DecidableEq

/-- Whitespace for the purposes of Python's `str.strip()` (the ASCII
whitespace characters that can occur in `dig` output). -/
def isWS (c : Char) : Bool := c = ' ' || c = '\t' || c = '\n' || c = '\r'

/-- Strip leading and trailing whitespace from a character list. -/
def trimChars (s : List Char) : List Char :=
  ((s.dropWhile isWS).reverse.dropWhile isWS).reverse

/-- Split a character list on newline characters (Python's `split("\n")`):
always at least one field, one extra field per newline. -/
def splitOnNewline : List Char → List (List Char)
  | [] => [[]]
  | c :: rest =>
    match splitOnNewline rest with
    | [] => [[c]]
    | l :: ls => if c = '\n' then [] :: l :: ls else (c :: l) :: ls

/-- Python's `str.strip()`. -/
def pyStrip (s : String) : String := ⟨trimChars s.data⟩

/-- Python's `str.split("\n")`. -/
def pySplitLines (s : String) : List String := (splitOnNewline s.data).map (fun l => ⟨l⟩)

/-- Embedding of the API's `dig_query` (DomainCheckApi.py lines 61-71): the
decoded output is stripped, split on newlines, and the lines that are
non-empty (`r`) and non-blank (`r.strip()`) are kept; any exception yields
the empty list. -/
def dig_query : DigOutcome → List String
  | .raised _ => []
  | .output raw => (pySplitLines (pyStrip raw)).filter (fun r => r ≠ "" && pyStrip r ≠ "")

/-- Outcome of one TCP connection attempt. -/
inductive TcpOutcome where
  | connected
  | raised (e : ExcKind)
deriving DecidableEq

/-- Embedding of `tcp_connect` (DomainCheckApi.py lines 74-80): `True` when
the connection is established, `False` on any exception. -/
def tcp_connect : TcpOutcome → Bool
  | .connected => true
  | .raised _ => false

/-- Outcome of one HTTP HEAD probe: the byte stream the peer made available
on the connection (the probe reads at most 50 of these bytes), or an
exception raised while connecting / sending / receiving. -/
inductive HttpOutcome where
  | response (bytes : List Nat)
  | raised (e : ExcKind)
deriving DecidableEq

/-- The four bytes of the ASCII literal `HTTP`. -/
def HTTP_BYTES : List Nat := [72, 84, 84, 80]

/-- The request string the API's `http_head` sends (DomainCheckApi.py line
102): a `HEAD /` request whose `Host` header is the probed domain, with
`Connection: close`. -/
def http_request (domain : String) : String :=
  "HEAD / HTTP/1.1\r\nHost: " ++ domain ++ "\r\nConnection: close\r\n\r\n"

/-- Embedding of the API's `http_head` (DomainCheckApi.py lines 98-107):
`conn.recv(50)` reads at most 50 bytes of the response and the result is
`resp.startswith(b"HTTP")`; any exception yields `False`. -/
def http_head : HttpOutcome → Bool
  | .raised _ => false
  | .response bytes => HTTP_BYTES.isPrefixOf (bytes.take 50)

end DomainCheck

namespace DomainCheckCli

/-- Embedding of the CLI's `dig_query` (DomainCheckCli.py lines 35-44); it
keeps lines that are merely non-empty (`if r`), without the API's extra
`r.strip()` test. -/
def dig_query : DomainCheck.DigOutcome → List String
  | .raised _ => []
  | .output raw =>
    (DomainCheck.pySplitLines (DomainCheck.pyStrip raw)).filter (fun r => r ≠ "")

/-- The request bytes the CLI's `http_head` sends (DomainCheckCli.py line
72): the `Host` header is the fixed literal `test`, not the probed domain. -/
def http_request : String :=
  "HEAD / HTTP/1.1\r\nHost: test\r\nConnection: close\r\n\r\n"

/-- Embedding of the CLI's `http_head` receive/classify logic
(DomainCheckCli.py lines 69-77), identical to the API's. -/
def http_head : DomainCheck.HttpOutcome → Bool
  | .raised _ => false
  | .response bytes => DomainCheck.HTTP_BYTES.isPrefixOf (bytes.take 50)

end DomainCheckCli

namespace DomainCheck

/-- Per-address Connectivity Record.  `tcp_80` and `tcp_443` are always
written by the TCP stage; `tls` and `http` are written only when the
corresponding gate fired (`none` models the key being absent from the Python
dict). -/
structure ConnRecord where
  tcp_80 : Bool
  tcp_443 : Bool
  tls : Option TlsResult
  http : Option Bool
deriving DecidableEq

/-- The `report["summary"]` dict.  `error`, `blocked_indicators`,
`is_blocked` and `conclusion` are optional because the early-termination path
never writes them (`error`) or only the full path writes them (the other
three); `elapsed_time` is written on both paths. -/
structure Summary where
  all_ips : List String
  dns_pollution : Bool
  dns_status : String
  error : Option String
  blocked_indicators : Option (List String)
  is_blocked : Option Bool
  conclusion : Option String
  elapsed_time : ℚ
deriving DecidableEq

/-- The report dict assembled by `check_domain` (timestamp omitted: no claim
mentions it). -/
structure Report where
  domain : String
  dns : List (String × List String)
  connectivity : List (String × ConnRecord)
  summary : Summary
deriving DecidableEq

/-- Instrumentation: how many probe invocations of each kind the run issued
(the lengths of the task lists `check_domain` builds). -/
structure ProbeCounts where
  dnsCalls : Nat
  tcpCalls : Nat
  tlsCalls : Nat
  httpCalls : Nat
deriving DecidableEq

/-- The configured resolver set (DomainCheckApi.py lines 24-29). -/
def TEST_DNS : List (String × String) :=
  [("Google(8.8.8.8)", "8.8.8.8"), ("Cloudflare(1.1.1.1)", "1.1.1.1"),
   ("Ali(223.5.5.5)", "223.5.5.5"), ("114DNS(114.114.114.114)", "114.114.114.114")]

/-- The configured port list (DomainCheckApi.py line 31). -/
def TEST_PORTS : List Nat := [80, 443]

/-- Round the fraction n / d (with d positive) to the nearest integer, ties
to even — the rounding mode of Python's builtin `round` — by integer
arithmetic: with f the floor and r the remainder, compare 2r against d. -/
def roundHalfEven (n : ℤ) (d : ℤ) : ℤ :=
  if 2 * (n - Int.fdiv n d * d) < d then Int.fdiv n d
  else if d < 2 * (n - Int.fdiv n d * d) then Int.fdiv n d + 1
  else if Int.fdiv n d % 2 = 0 then Int.fdiv n d else Int.fdiv n d + 1

/-- Python's `round(x, 2)`: round to two decimal places, ties to even
(wall-clock durations are modelled as rationals; 100q = (100 num) / den). -/
def round2 (q : ℚ) : ℚ := Rat.divInt (roundHalfEven (100 * q.num) (q.den : ℤ)) 100

/-- The DNS stage (DomainCheckApi.py lines 157-165): one `dig_query` per
configured resolver, keyed by resolver display name.  `digEnv` is the network
oracle giving each resolver's subprocess outcome. -/
def dnsStage (resolvers : List (String × String)) (digEnv : String → DigOutcome) :
    List (String × List String) :=
  resolvers.map (fun p => (p.1, dig_query (digEnv p.2)))

/-- The Address Set (DomainCheckApi.py line 168): the deduplicated union of
all addresses returned by all resolvers. -/
def unionIps (dns_dict : List (String × List String)) : List String :=
  ((dns_dict.map Prod.snd).flatten).dedup

/-- The Connectivity Record the API run builds for one address (lines
178-216): both TCP ports are probed and recorded; the TLS probe runs iff the
recorded `tcp_443` is true and the HTTP probe iff the recorded `tcp_80` is
true.  The oracles `tcpEnv`, `tlsEnv`, `httpEnv` give each invocation's
network outcome (the TLS probe dials the domain, but each gated address gets
its own invocation, hence its own oracle entry). -/
def mkRecord (tcpEnv : String → Nat → TcpOutcome) (tlsEnv : String → TlsAttempt)
    (httpEnv : String → HttpOutcome) (ip : String) : ConnRecord :=
  { tcp_80 := tcp_connect (tcpEnv ip 80)
    tcp_443 := tcp_connect (tcpEnv ip 443)
    tls := if tcp_connect (tcpEnv ip 443) then some (tls_handshake (tlsEnv ip)) else none
    http := if tcp_connect (tcpEnv ip 80) then some (http_head (httpEnv ip)) else none }

/-- The connectivity mapping over the whole Address Set. -/
def connStage (all_ips : List String) (tcpEnv : String → Nat → TcpOutcome)
    (tlsEnv : String → TlsAttempt) (httpEnv : String → HttpOutcome) :
    List (String × ConnRecord) :=
  all_ips.map (fun ip => (ip, mkRecord tcpEnv tlsEnv httpEnv ip))

/-- The blocked-indicator accumulation (DomainCheckApi.py lines 219-239):
the DNS-pollution indicator, then the TLS-reset indicator (the source loop
breaks on the first match, appending at most once), then the
total-TCP-failure indicator. -/
def blockedIndicators (dns_pollution : Bool) (connectivity : List (String × ConnRecord)) :
    List String :=
  (if dns_pollution then ["DNS污染"] else [])
    ++ (if connectivity.any (fun p => decide (p.2.tls = some TlsResult.reset))
        then ["TLS-Reset(疑似SNI封锁)"] else [])
    ++ (if connectivity.all (fun p => !(p.2.tcp_80 || p.2.tcp_443))
        then ["TCP连接失败"] else [])

/-- The summary written by the early-termination path (lines 167-176). -/
def earlySummary (all_ips : List String) (elapsed : ℚ) : Summary :=
  { all_ips := all_ips
    dns_pollution := decide (1 < all_ips.length)
    dns_status := if 1 < all_ips.length then "疑似 DNS 污染" else "DNS 解析一致"
    error := some "无法获得有效解析结果"
    blocked_indicators := none
    is_blocked := none
    conclusion := none
    elapsed_time := elapsed }

/-- The summary written by the full path (lines 167-171 and 218-244). -/
def fullSummary (all_ips : List String) (connectivity : List (String × ConnRecord))
    (elapsed : ℚ) : Summary :=
  { all_ips := all_ips
    dns_pollution := decide (1 < all_ips.length)
    dns_status := if 1 < all_ips.length then "疑似 DNS 污染" else "DNS 解析一致"
    error := none
    blocked_indicators := some (blockedIndicators (decide (1 < all_ips.length)) connectivity)
    is_blocked := some (decide (0 <
      (blockedIndicators (decide (1 < all_ips.length)) connectivity).length))
    conclusion := some (if 0 <
        (blockedIndicators (decide (1 < all_ips.length)) connectivity).length
      then "域名疑似被墙" else "未发现明显封锁")
    elapsed_time := round2 elapsed }

/-- Embedding of `check_domain` (DomainCheckApi.py lines 146-246), with the
resolver set as an explicit configuration parameter (the source reads the
module constant `TEST_DNS`).  `elapsed` models the wall-clock duration
`time.time() - start_time` measured at the return point.  Besides the report
it returns the number of probe invocations of each kind the run issued. -/
def check_domain (resolvers : List (String × String)) (domain : String)
    (digEnv : String → DigOutcome) (tcpEnv : String → Nat → TcpOutcome)
    (tlsEnv : String → TlsAttempt) (httpEnv : String → HttpOutcome)
    (elapsed : ℚ) : Report × ProbeCounts :=
  let dns_dict := dnsStage resolvers digEnv
  let all_ips := unionIps dns_dict
  if all_ips.isEmpty then
    ({ domain := domain
       dns := dns_dict
       connectivity := []
       summary := earlySummary all_ips elapsed },
     ⟨resolvers.length, 0, 0, 0⟩)
  else
    let connectivity := connStage all_ips tcpEnv tlsEnv httpEnv
    ({ domain := domain
       dns := dns_dict
       connectivity := connectivity
       summary := fullSummary all_ips connectivity elapsed },
     ⟨resolvers.length, all_ips.length * TEST_PORTS.length,
      (all_ips.filter (fun ip => tcp_connect (tcpEnv ip 443))).length,
      (all_ips.filter (fun ip => tcp_connect (tcpEnv ip 80))).length⟩)

/-- Lookup of one address's Connectivity Record in a report's connectivity
mapping. -/
def lookupConn (connectivity : List (String × ConnRecord)) (ip : String) :
    Option ConnRecord :=
  (connectivity.find? (fun p => p.1 == ip)).map Prod.snd

end DomainCheck

namespace DomainCheckCli

/-- The report dict built by the CLI `run` (DomainCheckCli.py line 92): it
has no summary section at all. -/
structure CliReport where
  domain : String
  dns : List (String × List String)
  connectivity : List (String × DomainCheck.ConnRecord)
deriving DecidableEq

/-- The Connectivity Record the CLI run loop builds for one address (lines
119-146).  Unlike the API, the CLI gates TLS and HTTP on fresh
`tcp_connect` invocations (lines 130 and 141) rather than on the recorded
results, so `tcpEnv` takes an invocation index for each (ip, port) pair: 0
for the recording call of line 125, 1 for the gating call. -/
def cliRecord (tcpEnv : String → Nat → Nat → DomainCheck.TcpOutcome)
    (tlsEnv : String → DomainCheck.TlsAttempt)
    (httpEnv : String → DomainCheck.HttpOutcome) (ip : String) :
    DomainCheck.ConnRecord :=
  { tcp_80 := DomainCheck.tcp_connect (tcpEnv ip 80 0)
    tcp_443 := DomainCheck.tcp_connect (tcpEnv ip 443 0)
    tls := if DomainCheck.tcp_connect (tcpEnv ip 443 1)
           then some (DomainCheck.tls_handshake (tlsEnv ip)) else none
    http := if DomainCheck.tcp_connect (tcpEnv ip 80 1)
            then some (http_head (httpEnv ip)) else none }

/-- Embedding of the CLI `run` (DomainCheckCli.py lines 84-154), with the
resolver set as an explicit configuration parameter. -/
def run (domain : String) (resolvers : List (String × String))
    (digEnv : String → DomainCheck.DigOutcome)
    (tcpEnv : String → Nat → Nat → DomainCheck.TcpOutcome)
    (tlsEnv : String → DomainCheck.TlsAttempt)
    (httpEnv : String → DomainCheck.HttpOutcome) : CliReport :=
  let dns_dict := resolvers.map (fun p => (p.1, dig_query (digEnv p.2)))
  let all_ips := ((dns_dict.map Prod.snd).flatten).dedup
  if all_ips.isEmpty then
    { domain := domain, dns := dns_dict, connectivity := [] }
  else
    { domain := domain, dns := dns_dict
      connectivity := all_ips.map (fun ip => (ip, cliRecord tcpEnv tlsEnv httpEnv ip)) }

end DomainCheckCli

namespace DomainCheck

/-- Taking the first 50 bytes of the stream does not change whether the
4-byte `HTTP` token is a prefix. -/
theorem isPrefixOf_take50 (s : List Nat) :
    HTTP_BYTES.isPrefixOf (s.take 50) = HTTP_BYTES.isPrefixOf s := by
  match s with
  | [] => rfl
  | [_] => rfl
  | [_, _] => rfl
  | [_, _, _] => rfl
  | a :: b :: c :: d :: t =>
    show (HTTP_BYTES.isPrefixOf (a :: b :: c :: d :: t.take 46))
        = HTTP_BYTES.isPrefixOf (a :: b :: c :: d :: t)
    simp [HTTP_BYTES, List.isPrefixOf]

/-- Claim C1, counterexample: the code discriminates TLS failures by the
Python exception class, not by the spec's cause-based rule.  A certificate
verification failure is an `ssl.SSLError`, so `tls_handshake` reports it as
`Reset`, while the claim's classification rule puts certificate failures
under `OtherFailure`; dually, an OS-level `ConnectionResetError` during the
handshake is not an `ssl.SSLError`, so the code reports `OtherFailure` where
the claim's rule says `Reset`. -/
theorem tls_cert_failure_classified_reset :
    tls_handshake (.raised .certVerificationError) = .reset
      ∧ specTlsClassify (.raised .certVerificationError) = .otherFailure
      ∧ tls_handshake (.raised .connectionReset) = .otherFailure
      ∧ specTlsClassify (.raised .connectionReset) = .reset := by
  refine ⟨rfl, rfl, rfl, rfl⟩

/-- Claim C1, amended: the TLS probe classifies its outcome into exactly
three cases by the exception class: an `ssl.SSLError` raised during the
attempt (which includes SSL-layer abrupt-termination errors and certificate
verification failures) yields `Reset`; any non-`SSLError` exception (timeout,
connection refused, OS-level connection reset) yields `OtherFailure`; a
completed handshake yields `Success`. -/
theorem tls_handshake_classifies_by_ssl_error :
    ∀ a : TlsAttempt, tls_handshake a = amendedTlsClassify a := by
  intro a
  cases a with
  | handshakeOk => rfl
  | raised e => rfl

/-- Claim C7, counterexample: the CLI's HTTP probe does not set the `Host`
header to the probed domain — it always sends the literal `Host: test`.  For
a run probing `example.com`, the request the CLI sends equals the request the
API would send for the domain `test`, and differs from the request with
`Host: example.com` that the claim requires. -/
theorem cli_http_host_header_ce :
    DomainCheckCli.http_request = http_request "test"
      ∧ DomainCheckCli.http_request ≠ http_request "example.com" := by
  refine ⟨rfl, by decide⟩

/-- Claim C7, amended: the API's HTTP probe sends a `HEAD / HTTP/1.1` request
whose `Host` header is the probed domain with `Connection: close`, reads at
most 50 bytes of response, and returns `true` iff the received bytes begin
with the literal token `HTTP`, with any I/O error yielding `false`; the CLI's
HTTP probe classifies identically but always sends the fixed header
`Host: test` instead of the probed domain. -/
theorem http_head_behavior_amended :
    ∀ (domain : String) (s : List Nat) (e : ExcKind),
      http_request domain
          = "HEAD / HTTP/1.1\r\nHost: " ++ domain ++ "\r\nConnection: close\r\n\r\n"
        ∧ (s.take 50).length ≤ 50
        ∧ (http_head (.response s) = true ↔ HTTP_BYTES.isPrefixOf s = true)
        ∧ http_head (.raised e) = false
        ∧ DomainCheckCli.http_request = http_request "test"
        ∧ DomainCheckCli.http_head (.response s) = http_head (.response s)
        ∧ DomainCheckCli.http_head (.raised e) = false := by
  intro domain s e
  refine ⟨rfl, ?_, ?_, rfl, rfl, rfl, rfl⟩
  · simp
  · show HTTP_BYTES.isPrefixOf (s.take 50) = true ↔ HTTP_BYTES.isPrefixOf s = true
    rw [isPrefixOf_take50 s]

/-- Claim C9: every probe absorbs every exception at its boundary and returns
a typed result — an empty list for a resolver failure, `false` for a
reachability or HTTP failure, and a `Reset`/`OtherFailure` tag (never
`Success`) for a TLS failure. -/
theorem probes_absorb_exceptions :
    ∀ e : ExcKind,
      dig_query (.raised e) = []
        ∧ DomainCheckCli.dig_query (.raised e) = []
        ∧ tcp_connect (.raised e) = false
        ∧ http_head (.raised e) = false
        ∧ (tls_handshake (.raised e) = .reset ∨ tls_handshake (.raised e) = .otherFailure)
        ∧ tls_handshake (.raised e) ≠ .success := by
  intro e
  refine ⟨rfl, rfl, rfl, rfl, ?_, ?_⟩
  · cases h : e.isSSLError
    · exact Or.inr (by simp [tls_handshake, h])
    · exact Or.inl (by simp [tls_handshake, h])
  · cases h : e.isSSLError <;> simp [tls_handshake, h]

end DomainCheck

namespace DomainCheck

/-- Helper: looking up a key in a list tabulating a function over distinct or
repeated keys returns that function's value at the key. -/
theorem find_in_tabulated {α : Type} (f : String → α) (l : List String) (x : String) (v : α)
    (h : ((l.map (fun a => (a, f a))).find? (fun p => p.1 == x)).map Prod.snd = some v) :
    v = f x := by
  induction l with
  | nil => simp at h
  | cons a t ih =>
    by_cases hax : a = x
    · subst hax
      rw [List.map_cons, List.find?_cons_of_pos _ (by simp)] at h
      simp at h
      exact h.symm
    · rw [List.map_cons, List.find?_cons_of_neg _ (by simp [hax])] at h
      exact ih h

/-- Helper: a successful association-list lookup produces a member of the
list. -/
theorem find_some_mem {α : Type} (l : List (String × α)) (x : String) (v : α)
    (h : (l.find? (fun p => p.1 == x)).map Prod.snd = some v) :
    ∃ p ∈ l, p.2 = v := by
  cases hf : l.find? (fun p => p.1 == x) with
  | none => rw [hf] at h; simp at h
  | some pr =>
    rw [hf] at h
    simp at h
    exact ⟨pr, List.mem_of_find?_eq_some hf, h⟩

/-- Helper: when every resolver contributes an empty list, the Address Set is
empty. -/
theorem unionIps_nil_of_all_empty (resolvers : List (String × String))
    (digEnv : String → DigOutcome) (h : ∀ p ∈ resolvers, dig_query (digEnv p.2) = []) :
    unionIps (dnsStage resolvers digEnv) = [] := by
  rw [unionIps, dnsStage, List.map_map]
  have hflat : (resolvers.map (Prod.snd ∘ fun p => (p.1, dig_query (digEnv p.2)))).flatten
      = [] := by
    rw [List.flatten_eq_nil_iff]
    intro l hl
    rw [List.mem_map] at hl
    obtain ⟨p, hp, hpl⟩ := hl
    rw [← hpl]
    exact h p hp
  rw [hflat]
  rfl

/-- Helper: the shape of a run that reaches the connectivity stage. -/
theorem check_domain_full_eq (resolvers : List (String × String)) (domain : String)
    (digEnv : String → DigOutcome) (tcpEnv : String → Nat → TcpOutcome)
    (tlsEnv : String → TlsAttempt) (httpEnv : String → HttpOutcome) (elapsed : ℚ)
    (he : (unionIps (dnsStage resolvers digEnv)).isEmpty = false) :
    check_domain resolvers domain digEnv tcpEnv tlsEnv httpEnv elapsed
      = ({ domain := domain, dns := dnsStage resolvers digEnv,
           connectivity := connStage (unionIps (dnsStage resolvers digEnv)) tcpEnv tlsEnv httpEnv,
           summary := fullSummary (unionIps (dnsStage resolvers digEnv))
             (connStage (unionIps (dnsStage resolvers digEnv)) tcpEnv tlsEnv httpEnv) elapsed },
         ⟨resolvers.length, (unionIps (dnsStage resolvers digEnv)).length * TEST_PORTS.length,
          ((unionIps (dnsStage resolvers digEnv)).filter
            (fun ip => tcp_connect (tcpEnv ip 443))).length,
          ((unionIps (dnsStage resolvers digEnv)).filter
            (fun ip => tcp_connect (tcpEnv ip 80))).length⟩) := by
  simp [check_domain, he]

/-- Helper: the TLS-reset indicator is present whenever some record carries a
`Reset` TLS result. -/
theorem mem_reset_indicator (b : Bool) (conn : List (String × ConnRecord))
    (hany : conn.any (fun p => decide (p.2.tls = some TlsResult.reset)) = true) :
    "TLS-Reset(疑似SNI封锁)" ∈ blockedIndicators b conn := by
  simp [blockedIndicators, hany]

/-- Helper: the TLS-reset indicator is appended exactly once (the source loop
breaks on the first matching address). -/
theorem count_reset_indicator (b : Bool) (conn : List (String × ConnRecord))
    (hany : conn.any (fun p => decide (p.2.tls = some TlsResult.reset)) = true) :
    (blockedIndicators b conn).count "TLS-Reset(疑似SNI封锁)" = 1 := by
  cases b <;> cases hall : conn.all (fun p => !(p.2.tcp_80 || p.2.tcp_443)) <;>
    unfold blockedIndicators <;> simp only [hany, hall] <;> decide

/-- Claim C2, counterexample: in the CLI, the gate re-invokes the TCP probe,
so when the first (recorded) connection attempt to port 443 succeeds but the
second (gating) attempt fails, the record has `tcp_443 = true` yet no `tls`
key — the claimed equivalence with the recorded result fails. -/
theorem cli_gating_uses_second_tcp_attempt_ce :
    lookupConn (DomainCheckCli.run "example.com" [("Google(8.8.8.8)", "8.8.8.8")]
        (fun _ => .output "1.2.3.4")
        (fun _ p i => if p = 443 ∧ i = 0 then .connected else .raised .timeout)
        (fun _ => .handshakeOk) (fun _ => .response [])).connectivity "1.2.3.4"
      = some (ConnRecord.mk false true none none)
    ∧ (ConnRecord.mk false true none none).tcp_443 = true
    ∧ (ConnRecord.mk false true none none).tls = none := by
  refine ⟨by decide, rfl, rfl⟩

/-- Claim C2, amended: in the API orchestrator the gating invariant holds as
stated — every address's record has a `tls` key iff its recorded `tcp_443` is
true and an `http` key iff its recorded `tcp_80` is true (keys absent, not
marked failed, otherwise).  In the CLI, the gate re-runs `tcp_connect`, so the
`tls` (resp. `http`) key is present iff the second connection attempt to port
443 (resp. 80) succeeds, which coincides with the recorded result only when
both attempts agree. -/
theorem gating_invariant_amended :
    (∀ (resolvers : List (String × String)) (domain : String)
       (digEnv : String → DigOutcome) (tcpEnv : String → Nat → TcpOutcome)
       (tlsEnv : String → TlsAttempt) (httpEnv : String → HttpOutcome) (elapsed : ℚ)
       (ip : String) (cr : ConnRecord),
       lookupConn
           (check_domain resolvers domain digEnv tcpEnv tlsEnv httpEnv elapsed).1.connectivity ip
           = some cr →
         (cr.tls.isSome = cr.tcp_443 ∧ cr.http.isSome = cr.tcp_80))
    ∧ (∀ (domain : String) (resolvers : List (String × String))
       (digEnv : String → DigOutcome) (tcpEnv : String → Nat → Nat → TcpOutcome)
       (tlsEnv : String → TlsAttempt) (httpEnv : String → HttpOutcome)
       (ip : String) (cr : ConnRecord),
       lookupConn
           (DomainCheckCli.run domain resolvers digEnv tcpEnv tlsEnv httpEnv).connectivity ip
           = some cr →
         (cr.tls.isSome = tcp_connect (tcpEnv ip 443 1)
           ∧ cr.http.isSome = tcp_connect (tcpEnv ip 80 1)
           ∧ cr.tcp_443 = tcp_connect (tcpEnv ip 443 0)
           ∧ cr.tcp_80 = tcp_connect (tcpEnv ip 80 0))) := by
  constructor
  · intro resolvers domain digEnv tcpEnv tlsEnv httpEnv elapsed ip cr h
    cases he : (unionIps (dnsStage resolvers digEnv)).isEmpty
    · simp only [check_domain, he] at h
      simp only [Bool.false_eq_true, if_false] at h
      have hcr := find_in_tabulated (mkRecord tcpEnv tlsEnv httpEnv)
        (unionIps (dnsStage resolvers digEnv)) ip cr h
      rw [hcr]
      cases h443 : tcp_connect (tcpEnv ip 443) <;> cases h80 : tcp_connect (tcpEnv ip 80) <;>
        simp [mkRecord, h443, h80]
    · simp [check_domain, he, lookupConn] at h
  · intro domain resolvers digEnv tcpEnv tlsEnv httpEnv ip cr h
    cases he : ((((resolvers.map
        (fun p => (p.1, DomainCheckCli.dig_query (digEnv p.2)))).map Prod.snd)).flatten.dedup).isEmpty
    · simp only [DomainCheckCli.run, he] at h
      simp only [Bool.false_eq_true, if_false] at h
      have hcr := find_in_tabulated (DomainCheckCli.cliRecord tcpEnv tlsEnv httpEnv) _ ip cr h
      rw [hcr]
      cases h443 : tcp_connect (tcpEnv ip 443 1) <;> cases h80 : tcp_connect (tcpEnv ip 80 1) <;>
        simp [DomainCheckCli.cliRecord, h443, h80]
    · simp only [DomainCheckCli.run, he] at h
      simp [lookupConn] at h

/-- Claim C2, witness: a concrete API run in which both gates fired. -/
theorem gating_invariant_amended_witness :
    (ConnRecord.mk true true (some TlsResult.success) (some false)).tls.isSome
        = (ConnRecord.mk true true (some TlsResult.success) (some false)).tcp_443
      ∧ (ConnRecord.mk true true (some TlsResult.success) (some false)).http.isSome
        = (ConnRecord.mk true true (some TlsResult.success) (some false)).tcp_80 :=
  gating_invariant_amended.1 [("Google(8.8.8.8)", "8.8.8.8")] "example.com"
    (fun _ => DigOutcome.output "1.2.3.4") (fun _ _ => TcpOutcome.connected)
    (fun _ => TlsAttempt.handshakeOk) (fun _ => HttpOutcome.response []) 0 "1.2.3.4"
    (ConnRecord.mk true true (some TlsResult.success) (some false)) (by decide)

/-- Claim C3, counterexample: the CLI's early-terminated run (DomainCheckCli.py
lines 114-117) returns the report dict of line 92 unchanged — domain, dns and
an empty connectivity mapping and nothing else.  The no-resolvable-address
text is only printed to the terminal, never stored, so the returned report
has no Summary section, no error field and no elapsed time, contradicting the
claim for the CLI runs it covers. -/
theorem cli_early_report_has_no_summary_ce :
    DomainCheckCli.run "example.com" TEST_DNS (fun _ => .raised .timeout)
        (fun _ _ _ => .connected) (fun _ => .handshakeOk) (fun _ => .response [])
      = ⟨"example.com",
         [("Google(8.8.8.8)", []), ("Cloudflare(1.1.1.1)", []),
          ("Ali(223.5.5.5)", []), ("114DNS(114.114.114.114)", [])], []⟩ := by
  decide

/-- Claim C3, amended: when every resolver returns an empty address list,
both drivers stop after the DNS stage with an empty connectivity mapping.
In the API run the returned report's summary records the
no-resolvable-address error and an elapsed time, and no TCP, TLS, or HTTP
probe is invoked; the CLI run likewise attempts no connectivity stage, but
its returned report carries no summary at all — it is exactly the
domain / dns / empty-connectivity record, with no error field and no elapsed
time. -/
theorem empty_address_set_short_circuits :
    (∀ (resolvers : List (String × String)) (domain : String)
       (digEnv : String → DigOutcome) (tcpEnv : String → Nat → TcpOutcome)
       (tlsEnv : String → TlsAttempt) (httpEnv : String → HttpOutcome) (elapsed : ℚ),
       (∀ p ∈ resolvers, dig_query (digEnv p.2) = []) →
         (check_domain resolvers domain digEnv tcpEnv tlsEnv httpEnv elapsed).1.connectivity = []
           ∧ (check_domain resolvers domain digEnv tcpEnv tlsEnv httpEnv elapsed).1.summary.error
               = some "无法获得有效解析结果"
           ∧ (check_domain resolvers domain digEnv tcpEnv tlsEnv httpEnv
               elapsed).1.summary.elapsed_time = elapsed
           ∧ (check_domain resolvers domain digEnv tcpEnv tlsEnv httpEnv elapsed).2.tcpCalls = 0
           ∧ (check_domain resolvers domain digEnv tcpEnv tlsEnv httpEnv elapsed).2.tlsCalls = 0
           ∧ (check_domain resolvers domain digEnv tcpEnv tlsEnv httpEnv elapsed).2.httpCalls = 0)
    ∧ (∀ (domain : String) (resolvers : List (String × String))
       (digEnv : String → DigOutcome) (tcpEnv : String → Nat → Nat → TcpOutcome)
       (tlsEnv : String → TlsAttempt) (httpEnv : String → HttpOutcome),
       (∀ p ∈ resolvers, DomainCheckCli.dig_query (digEnv p.2) = []) →
         DomainCheckCli.run domain resolvers digEnv tcpEnv tlsEnv httpEnv
           = ⟨domain, resolvers.map (fun p => (p.1, DomainCheckCli.dig_query (digEnv p.2))),
              []⟩) := by
  constructor
  · intro resolvers domain digEnv tcpEnv tlsEnv httpEnv elapsed h
    have hips := unionIps_nil_of_all_empty resolvers digEnv h
    simp [check_domain, hips, earlySummary]
  · intro domain resolvers digEnv tcpEnv tlsEnv httpEnv h
    have hips : (resolvers.map (Prod.snd ∘ fun p =>
        (p.1, DomainCheckCli.dig_query (digEnv p.2)))).flatten.dedup = [] := by
      have hflat : (resolvers.map (Prod.snd ∘ fun p =>
          (p.1, DomainCheckCli.dig_query (digEnv p.2)))).flatten = [] := by
        rw [List.flatten_eq_nil_iff]
        intro l hl
        rw [List.mem_map] at hl
        obtain ⟨p, hp, hpl⟩ := hl
        rw [← hpl]
        exact h p hp
      rw [hflat]
      rfl
    simp [DomainCheckCli.run, hips]

/-- Claim C3, witness: a concrete API run in which all four configured
resolvers fail, and a concrete CLI run in which all four resolvers answer
with blank output. -/
theorem empty_address_set_short_circuits_witness :
    (check_domain TEST_DNS "example.com" (fun _ => DigOutcome.raised ExcKind.timeout)
        (fun _ _ => TcpOutcome.raised ExcKind.timeout)
        (fun _ => TlsAttempt.raised ExcKind.timeout)
        (fun _ => HttpOutcome.raised ExcKind.timeout) 1).1.connectivity = []
      ∧ (check_domain TEST_DNS "example.com" (fun _ => DigOutcome.raised ExcKind.timeout)
          (fun _ _ => TcpOutcome.raised ExcKind.timeout)
          (fun _ => TlsAttempt.raised ExcKind.timeout)
          (fun _ => HttpOutcome.raised ExcKind.timeout) 1).1.summary.error
          = some "无法获得有效解析结果"
      ∧ (check_domain TEST_DNS "example.com" (fun _ => DigOutcome.raised ExcKind.timeout)
          (fun _ _ => TcpOutcome.raised ExcKind.timeout)
          (fun _ => TlsAttempt.raised ExcKind.timeout)
          (fun _ => HttpOutcome.raised ExcKind.timeout) 1).1.summary.elapsed_time = 1
      ∧ (check_domain TEST_DNS "example.com" (fun _ => DigOutcome.raised ExcKind.timeout)
          (fun _ _ => TcpOutcome.raised ExcKind.timeout)
          (fun _ => TlsAttempt.raised ExcKind.timeout)
          (fun _ => HttpOutcome.raised ExcKind.timeout) 1).2.tcpCalls = 0
      ∧ (check_domain TEST_DNS "example.com" (fun _ => DigOutcome.raised ExcKind.timeout)
          (fun _ _ => TcpOutcome.raised ExcKind.timeout)
          (fun _ => TlsAttempt.raised ExcKind.timeout)
          (fun _ => HttpOutcome.raised ExcKind.timeout) 1).2.tlsCalls = 0
      ∧ (check_domain TEST_DNS "example.com" (fun _ => DigOutcome.raised ExcKind.timeout)
          (fun _ _ => TcpOutcome.raised ExcKind.timeout)
          (fun _ => TlsAttempt.raised ExcKind.timeout)
          (fun _ => HttpOutcome.raised ExcKind.timeout) 1).2.httpCalls = 0
      ∧ DomainCheckCli.run "unresolvable.example" TEST_DNS (fun _ => DigOutcome.output "")
          (fun _ _ _ => TcpOutcome.connected) (fun _ => TlsAttempt.handshakeOk)
          (fun _ => HttpOutcome.response [])
          = ⟨"unresolvable.example",
             TEST_DNS.map (fun p => (p.1, DomainCheckCli.dig_query (DigOutcome.output ""))),
             []⟩ :=
  by
  have h := empty_address_set_short_circuits.1 TEST_DNS "example.com"
    (fun _ => DigOutcome.raised ExcKind.timeout) (fun _ _ => TcpOutcome.raised ExcKind.timeout)
    (fun _ => TlsAttempt.raised ExcKind.timeout) (fun _ => HttpOutcome.raised ExcKind.timeout)
    1 (by decide)
  have hc := empty_address_set_short_circuits.2 "unresolvable.example" TEST_DNS
    (fun _ => DigOutcome.output "") (fun _ _ _ => TcpOutcome.connected)
    (fun _ => TlsAttempt.handshakeOk) (fun _ => HttpOutcome.response []) (by decide)
  exact ⟨h.1, h.2.1, h.2.2.1, h.2.2.2.1, h.2.2.2.2.1, h.2.2.2.2.2, hc⟩

/-- Claim C4: the report's `dns_pollution` flag is true iff the deduplicated
union of all addresses returned by all resolvers has more than one element;
in particular, a single resolver returning one address gives
`dns_pollution = false`. -/
theorem dns_pollution_iff_multiple_ips :
    (∀ (resolvers : List (String × String)) (domain : String)
       (digEnv : String → DigOutcome) (tcpEnv : String → Nat → TcpOutcome)
       (tlsEnv : String → TlsAttempt) (httpEnv : String → HttpOutcome) (elapsed : ℚ),
       ((check_domain resolvers domain digEnv tcpEnv tlsEnv httpEnv elapsed).1.summary.dns_pollution
           = true
         ↔ 1 < ((((check_domain resolvers domain digEnv tcpEnv tlsEnv httpEnv
             elapsed).1.dns).map Prod.snd).flatten.dedup).length))
    ∧ (check_domain [("Google(8.8.8.8)", "8.8.8.8")] "example.com" (fun _ => .output "1.2.3.4")
        (fun _ _ => .connected) (fun _ => .handshakeOk) (fun _ => .response [])
        0).1.summary.dns_pollution = false := by
  constructor
  · intro resolvers domain digEnv tcpEnv tlsEnv httpEnv elapsed
    cases he : (unionIps (dnsStage resolvers digEnv)).isEmpty <;>
      simp [check_domain, he, earlySummary, fullSummary] <;>
      simp [unionIps]
  · decide

/-- Claim C5: if any address's TLS result is `Reset`, the TLS-reset indicator
appears in `blocked_indicators` (exactly once — the source loop short-circuits
on the first match) and `is_blocked` is true, regardless of any other
signal. -/
theorem tls_reset_propagates_to_indicators
    (resolvers : List (String × String)) (domain : String)
    (digEnv : String → DigOutcome) (tcpEnv : String → Nat → TcpOutcome)
    (tlsEnv : String → TlsAttempt) (httpEnv : String → HttpOutcome) (elapsed : ℚ)
    (ip : String) (cr : ConnRecord)
    (hlook : lookupConn
        (check_domain resolvers domain digEnv tcpEnv tlsEnv httpEnv elapsed).1.connectivity ip
        = some cr)
    (hreset : cr.tls = some TlsResult.reset) :
    "TLS-Reset(疑似SNI封锁)" ∈ ((check_domain resolvers domain digEnv tcpEnv tlsEnv httpEnv
          elapsed).1.summary.blocked_indicators.getD [])
      ∧ (check_domain resolvers domain digEnv tcpEnv tlsEnv httpEnv
          elapsed).1.summary.is_blocked = some true
      ∧ ((check_domain resolvers domain digEnv tcpEnv tlsEnv httpEnv
          elapsed).1.summary.blocked_indicators.getD []).count "TLS-Reset(疑似SNI封锁)" = 1 := by
  cases he : (unionIps (dnsStage resolvers digEnv)).isEmpty
  · rw [check_domain_full_eq resolvers domain digEnv tcpEnv tlsEnv httpEnv elapsed he] at hlook ⊢
    obtain ⟨pr, hmem, hpr⟩ := find_some_mem _ ip cr hlook
    have hany : (connStage (unionIps (dnsStage resolvers digEnv)) tcpEnv tlsEnv httpEnv).any
        (fun p => decide (p.2.tls = some TlsResult.reset)) = true :=
      List.any_eq_true.mpr ⟨pr, hmem, by simp [hpr, hreset]⟩
    have hin := mem_reset_indicator
      (decide (1 < (unionIps (dnsStage resolvers digEnv)).length)) _ hany
    have hpos : 0 < (blockedIndicators
        (decide (1 < (unionIps (dnsStage resolvers digEnv)).length))
        (connStage (unionIps (dnsStage resolvers digEnv)) tcpEnv tlsEnv httpEnv)).length :=
      List.length_pos.mpr (List.ne_nil_of_mem hin)
    refine ⟨?_, ?_, ?_⟩
    · simpa [fullSummary] using hin
    · simp [fullSummary, hpos]
    · simpa [fullSummary] using count_reset_indicator
        (decide (1 < (unionIps (dnsStage resolvers digEnv)).length)) _ hany
  · simp [check_domain, he, lookupConn] at hlook

/-- Claim C5, witness: a concrete run in which the single address's TLS probe
raised an SSL error, so its record carries `Reset`. -/
theorem tls_reset_propagates_witness :
    "TLS-Reset(疑似SNI封锁)" ∈ ((check_domain [("Google(8.8.8.8)", "8.8.8.8")] "example.com"
          (fun _ => DigOutcome.output "1.2.3.4") (fun _ _ => TcpOutcome.connected)
          (fun _ => TlsAttempt.raised ExcKind.sslAbort) (fun _ => HttpOutcome.response [])
          0).1.summary.blocked_indicators.getD [])
      ∧ (check_domain [("Google(8.8.8.8)", "8.8.8.8")] "example.com"
          (fun _ => DigOutcome.output "1.2.3.4") (fun _ _ => TcpOutcome.connected)
          (fun _ => TlsAttempt.raised ExcKind.sslAbort) (fun _ => HttpOutcome.response [])
          0).1.summary.is_blocked = some true
      ∧ ((check_domain [("Google(8.8.8.8)", "8.8.8.8")] "example.com"
          (fun _ => DigOutcome.output "1.2.3.4") (fun _ _ => TcpOutcome.connected)
          (fun _ => TlsAttempt.raised ExcKind.sslAbort) (fun _ => HttpOutcome.response [])
          0).1.summary.blocked_indicators.getD []).count "TLS-Reset(疑似SNI封锁)" = 1 :=
  tls_reset_propagates_to_indicators [("Google(8.8.8.8)", "8.8.8.8")] "example.com"
    (fun _ => DigOutcome.output "1.2.3.4") (fun _ _ => TcpOutcome.connected)
    (fun _ => TlsAttempt.raised ExcKind.sslAbort) (fun _ => HttpOutcome.response []) 0
    "1.2.3.4" (ConnRecord.mk true true (some TlsResult.reset) (some false))
    (by decide) (by decide)

/-- Claim C6: for a completed run with a non-empty Address Set, the
TCP-connection-failure indicator appears in `blocked_indicators` iff no
address has either its `tcp_80` or its `tcp_443` result true. -/
theorem tcp_failure_indicator_iff_total_loss
    (resolvers : List (String × String)) (domain : String)
    (digEnv : String → DigOutcome) (tcpEnv : String → Nat → TcpOutcome)
    (tlsEnv : String → TlsAttempt) (httpEnv : String → HttpOutcome) (elapsed : ℚ)
    (hne : (check_domain resolvers domain digEnv tcpEnv tlsEnv httpEnv
        elapsed).1.connectivity ≠ []) :
    ("TCP连接失败" ∈ ((check_domain resolvers domain digEnv tcpEnv tlsEnv httpEnv
          elapsed).1.summary.blocked_indicators.getD [])
      ↔ ∀ p ∈ (check_domain resolvers domain digEnv tcpEnv tlsEnv httpEnv
          elapsed).1.connectivity, p.2.tcp_80 = false ∧ p.2.tcp_443 = false) := by
  cases he : (unionIps (dnsStage resolvers digEnv)).isEmpty
  · rw [check_domain_full_eq resolvers domain digEnv tcpEnv tlsEnv httpEnv elapsed he] at hne ⊢
    have key : ("TCP连接失败" ∈ blockedIndicators
          (decide (1 < (unionIps (dnsStage resolvers digEnv)).length))
          (connStage (unionIps (dnsStage resolvers digEnv)) tcpEnv tlsEnv httpEnv))
        ↔ ((connStage (unionIps (dnsStage resolvers digEnv)) tcpEnv tlsEnv httpEnv).all
          (fun p => !(p.2.tcp_80 || p.2.tcp_443)) = true) := by
      cases hb : decide (1 < (unionIps (dnsStage resolvers digEnv)).length) <;>
        cases ha : (connStage (unionIps (dnsStage resolvers digEnv)) tcpEnv tlsEnv httpEnv).any
            (fun p => decide (p.2.tls = some TlsResult.reset)) <;>
          cases hall : (connStage (unionIps (dnsStage resolvers digEnv)) tcpEnv tlsEnv httpEnv).all
              (fun p => !(p.2.tcp_80 || p.2.tcp_443)) <;>
            unfold blockedIndicators <;> simp only [hb, ha, hall] <;> decide
    constructor
    · intro hm p hp
      have hp2 := List.all_eq_true.mp (key.mp (by simpa [fullSummary] using hm)) p hp
      constructor
      · cases h80 : p.2.tcp_80 <;> simp [h80] at hp2 ⊢
      · cases h443 : p.2.tcp_443 <;> cases h80 : p.2.tcp_80 <;> simp [h443, h80] at hp2 ⊢
    · intro hall
      have : (connStage (unionIps (dnsStage resolvers digEnv)) tcpEnv tlsEnv httpEnv).all
          (fun p => !(p.2.tcp_80 || p.2.tcp_443)) = true :=
        List.all_eq_true.mpr (fun p hp => by simp [(hall p hp).1, (hall p hp).2])
      simpa [fullSummary] using key.mpr this
  · simp [check_domain, he] at hne

/-- Claim C6, witness: a concrete run in which every TCP attempt to the
single resolved address is refused. -/
theorem tcp_failure_indicator_iff_witness :
    ("TCP连接失败" ∈ ((check_domain [("Google(8.8.8.8)", "8.8.8.8")] "example.com"
          (fun _ => DigOutcome.output "1.2.3.4")
          (fun _ _ => TcpOutcome.raised ExcKind.connectionRefused)
          (fun _ => TlsAttempt.handshakeOk) (fun _ => HttpOutcome.response [])
          0).1.summary.blocked_indicators.getD [])
      ↔ ∀ p ∈ (check_domain [("Google(8.8.8.8)", "8.8.8.8")] "example.com"
          (fun _ => DigOutcome.output "1.2.3.4")
          (fun _ _ => TcpOutcome.raised ExcKind.connectionRefused)
          (fun _ => TlsAttempt.handshakeOk) (fun _ => HttpOutcome.response [])
          0).1.connectivity, p.2.tcp_80 = false ∧ p.2.tcp_443 = false) :=
  tcp_failure_indicator_iff_total_loss [("Google(8.8.8.8)", "8.8.8.8")] "example.com"
    (fun _ => DigOutcome.output "1.2.3.4") (fun _ _ => TcpOutcome.raised ExcKind.connectionRefused)
    (fun _ => TlsAttempt.handshakeOk) (fun _ => HttpOutcome.response []) 0 (by decide)

/-- Claim C8, counterexample: a run that terminates early because the Address
Set is empty stores the raw, unrounded duration — with a duration of 1/3 the
stored `elapsed_time` is 1/3, not the two-decimal rounding 33/100. -/
theorem early_elapsed_not_rounded_ce :
    (check_domain TEST_DNS "example.com" (fun _ => DigOutcome.raised ExcKind.timeout)
        (fun _ _ => TcpOutcome.raised ExcKind.timeout)
        (fun _ => TlsAttempt.raised ExcKind.timeout)
        (fun _ => HttpOutcome.raised ExcKind.timeout)
        (mkRat 1 3)).1.summary.elapsed_time ≠ round2 (mkRat 1 3) := by
  decide

/-- Claim C8, amended: for a completed run `elapsed_time` is the wall-clock
duration rounded to two decimal places, but for a run that terminates early
with an empty Address Set it is the raw, unrounded duration. -/
theorem elapsed_time_rounding_amended
    (resolvers : List (String × String)) (domain : String)
    (digEnv : String → DigOutcome) (tcpEnv : String → Nat → TcpOutcome)
    (tlsEnv : String → TlsAttempt) (httpEnv : String → HttpOutcome) (elapsed : ℚ) :
    ((∀ p ∈ resolvers, dig_query (digEnv p.2) = []) →
        (check_domain resolvers domain digEnv tcpEnv tlsEnv httpEnv
          elapsed).1.summary.elapsed_time = elapsed)
    ∧ ((check_domain resolvers domain digEnv tcpEnv tlsEnv httpEnv
          elapsed).1.connectivity ≠ [] →
        (check_domain resolvers domain digEnv tcpEnv tlsEnv httpEnv
          elapsed).1.summary.elapsed_time = round2 elapsed) := by
  constructor
  · intro h
    have hips := unionIps_nil_of_all_empty resolvers digEnv h
    simp [check_domain, hips, earlySummary]
  · intro hne
    cases he : (unionIps (dnsStage resolvers digEnv)).isEmpty
    · rw [check_domain_full_eq resolvers domain digEnv tcpEnv tlsEnv httpEnv elapsed he]
      simp [fullSummary]
    · simp [check_domain, he] at hne

/-- Claim C8, witness: a concrete early-terminated run whose stored elapsed
time is the raw duration. -/
theorem elapsed_time_rounding_amended_witness :
    (check_domain TEST_DNS "example.com" (fun _ => DigOutcome.raised ExcKind.timeout)
        (fun _ _ => TcpOutcome.raised ExcKind.timeout)
        (fun _ => TlsAttempt.raised ExcKind.timeout)
        (fun _ => HttpOutcome.raised ExcKind.timeout)
        (mkRat 1 3)).1.summary.elapsed_time = mkRat 1 3 :=
  (elapsed_time_rounding_amended TEST_DNS "example.com"
    (fun _ => DigOutcome.raised ExcKind.timeout) (fun _ _ => TcpOutcome.raised ExcKind.timeout)
    (fun _ => TlsAttempt.raised ExcKind.timeout) (fun _ => HttpOutcome.raised ExcKind.timeout)
    (mkRat 1 3)).1 (by decide)

/-- Claim C10: a run that terminates early with an empty Address Set still
reports `all_ips` (empty), `dns_pollution` (false), and `dns_status`, but its
summary has no `blocked_indicators`, `is_blocked`, or `conclusion` field, so
no blocking verdict can be read from it. -/
theorem early_report_omits_verdict_fields
    (resolvers : List (String × String)) (domain : String)
    (digEnv : String → DigOutcome) (tcpEnv : String → Nat → TcpOutcome)
    (tlsEnv : String → TlsAttempt) (httpEnv : String → HttpOutcome) (elapsed : ℚ)
    (h : ∀ p ∈ resolvers, dig_query (digEnv p.2) = []) :
    (check_domain resolvers domain digEnv tcpEnv tlsEnv httpEnv elapsed).1.summary.all_ips = []
      ∧ (check_domain resolvers domain digEnv tcpEnv tlsEnv httpEnv elapsed).1.summary.dns_pollution
          = false
      ∧ (check_domain resolvers domain digEnv tcpEnv tlsEnv httpEnv elapsed).1.summary.dns_status
          = "DNS 解析一致"
      ∧ (check_domain resolvers domain digEnv tcpEnv tlsEnv httpEnv
          elapsed).1.summary.blocked_indicators = none
      ∧ (check_domain resolvers domain digEnv tcpEnv tlsEnv httpEnv elapsed).1.summary.is_blocked
          = none
      ∧ (check_domain resolvers domain digEnv tcpEnv tlsEnv httpEnv elapsed).1.summary.conclusion
          = none := by
  have hips := unionIps_nil_of_all_empty resolvers digEnv h
  simp [check_domain, hips, earlySummary]

/-- Claim C10, witness: a concrete run in which every resolver answers with
blank output. -/
theorem early_report_omits_verdict_fields_witness :
    (check_domain TEST_DNS "blocked.example" (fun _ => DigOutcome.output "")
        (fun _ _ => TcpOutcome.connected) (fun _ => TlsAttempt.handshakeOk)
        (fun _ => HttpOutcome.response []) 2).1.summary.all_ips = []
      ∧ (check_domain TEST_DNS "blocked.example" (fun _ => DigOutcome.output "")
          (fun _ _ => TcpOutcome.connected) (fun _ => TlsAttempt.handshakeOk)
          (fun _ => HttpOutcome.response []) 2).1.summary.dns_pollution = false
      ∧ (check_domain TEST_DNS "blocked.example" (fun _ => DigOutcome.output "")
          (fun _ _ => TcpOutcome.connected) (fun _ => TlsAttempt.handshakeOk)
          (fun _ => HttpOutcome.response []) 2).1.summary.dns_status = "DNS 解析一致"
      ∧ (check_domain TEST_DNS "blocked.example" (fun _ => DigOutcome.output "")
          (fun _ _ => TcpOutcome.connected) (fun _ => TlsAttempt.handshakeOk)
          (fun _ => HttpOutcome.response []) 2).1.summary.blocked_indicators = none
      ∧ (check_domain TEST_DNS "blocked.example" (fun _ => DigOutcome.output "")
          (fun _ _ => TcpOutcome.connected) (fun _ => TlsAttempt.handshakeOk)
          (fun _ => HttpOutcome.response []) 2).1.summary.is_blocked = none
      ∧ (check_domain TEST_DNS "blocked.example" (fun _ => DigOutcome.output "")
          (fun _ _ => TcpOutcome.connected) (fun _ => TlsAttempt.handshakeOk)
          (fun _ => HttpOutcome.response []) 2).1.summary.conclusion = none :=
  early_report_omits_verdict_fields TEST_DNS "blocked.example" (fun _ => DigOutcome.output "")
    (fun _ _ => TcpOutcome.connected) (fun _ => TlsAttempt.handshakeOk)
    (fun _ => HttpOutcome.response []) 2 (by decide)

end DomainCheck
